import Mathlib

/-!
# Verification of the deno-mmap wrapper layer

Shallow embedding of the TypeScript sources of `deno-mmap`:
`src/platform.ts` (platform identification and asset naming),
`src/loader.ts` (binary resolution, checksum verification, symbol binding)
and `src/ffi_api.ts` (the mmap handle protocol: open / openWrite /
openWriteWithSize / write / read / flush / close).

Runtime facilities of Deno (environment variables, the filesystem, the
network, `dlopen`) and the native Rust mmap engine are modelled as explicit
parameters: records of oracles and state so that every wrapper function is a
pure Lean function of its inputs.  Each definition is translated from the
corresponding TypeScript function; definitions whose code lives outside the
repository (the native engine) are modelled from the spec and say so in
their doc comment.
-/

namespace DenoMmap

/-- Error values raised by the wrapper layer.  The TypeScript code throws
`Error` objects with distinct messages; each throw site is given its own
constructor here so that errors are distinguishable, mirroring the spec's
error taxonomy. -/
inductive Err where
  /-- `Unsupported OS: ...` thrown by `currentPlatform`. -/
  | unsupportedOS (os : String)
  /-- `Unsupported arch: ...` thrown by `currentPlatform`. -/
  | unsupportedArch (arch : String)
  /-- `mmap_open* failed: path` thrown by the open family on a null region. -/
  | openFailed (path : String)
  /-- `Deno.truncate` failing because the file does not exist. -/
  | fileNotFound (path : String)
  /-- `write beyond mapping length` thrown by `write`. -/
  | outOfBoundsWrite
  /-- `read beyond mapping length` thrown by `read`. -/
  | outOfBoundsRead
  /-- `mmap_flush failed` thrown by `flush`. -/
  | flushFailed
  /-- `No checksum for ...` thrown by `loadLibrary` (MissingChecksumEntry). -/
  | missingChecksumEntry (asset : String)
  /-- `Checksum mismatch for ...` thrown by `loadLibrary` (ChecksumMismatch). -/
  | checksumMismatch (asset : String)
  /-- `Failed to fetch ...` thrown by `downloadAsset` (DownloadFailed). -/
  | downloadFailed
  /-- neither symbol set binds: the second `Deno.dlopen` failure propagates
  out of `loadLibrary` (LibraryLoadFailed). -/
  | libraryLoadFailed
  deriving DecidableEq, Repr

/-! ## Platform identifier and asset namer (`src/platform.ts`) -/

/-- `currentPlatform()` from `src/platform.ts`, with `Deno.build.os` and
`Deno.build.arch` passed in explicitly.  The OS must be one of
`windows`/`linux`/`darwin` and the arch one of `x86_64`/`aarch64`;
anything else throws an `Unsupported ...` error. -/
def currentPlatform (os arch : String) : Except Err (String × String) :=
  if os ≠ "windows" ∧ os ≠ "linux" ∧ os ≠ "darwin" then
    .error (.unsupportedOS os)
  else if arch = "x86_64" then .ok (os, "x86_64")
  else if arch = "aarch64" then .ok (os, "aarch64")
  else .error (.unsupportedArch arch)

/-- `assetName(crateName)` from `src/platform.ts`: builds
`<crateName>-<osTag>-<arch>.<ext>` with windows→dll, linux→so, darwin→dylib
and the darwin OS label remapped to the `macos` tag. -/
def assetName (os arch crateName : String) : Except Err String :=
  match currentPlatform os arch with
  | .error e => .error e
  | .ok (o, a) =>
    let ext := if o = "windows" then "dll" else if o = "linux" then "so" else "dylib"
    let osTag := if o = "darwin" then "macos" else o
    .ok (crateName ++ "-" ++ osTag ++ "-" ++ a ++ "." ++ ext)

/-! ## The mmap handle protocol (`src/ffi_api.ts`) -/

/-- `MmapHandle` from `src/ffi_api.ts`.  `Deno.PointerValue` is modelled as
the numeric address (`0` = null pointer). -/
structure MmapHandle where
  ptr : Nat
  len : Nat
  path : String
  deriving DecidableEq, Repr

/-- Oracle for the pointer-level native calls made by `write`, `read` and
`flush`: the bound library's `mmap_write`, `mmap_read` and `mmap_flush`
symbols.  Their behaviour is outside the repository, so it is kept fully
abstract: any functions of the arguments the wrapper passes. -/
structure Native where
  mmap_write : Nat → Nat → List Nat → Nat → Nat
  mmap_read : Nat → Nat → Nat → Nat
  mmap_flush : Nat → Nat → Nat → Int

/-- Record of which native symbols a wrapper call actually invoked, so
"fails before any native call is issued" is a provable statement. -/
inductive NativeCall where
  | writeCall (base off len : Nat)
  | readCall (base off len : Nat)
  | flushCall (base off len : Nat)
  | closeCall (base len : Nat)
  deriving DecidableEq, Repr

/-- `write(h, src, offset)` from `src/ffi_api.ts`: bounds-check
`offset + src.length > h.len` first, then a single `mmap_write` call whose
result is returned as the byte count.  The second component is the list of
native calls issued. -/
def write (nv : Native) (h : MmapHandle) (src : List Nat) (offset : Nat) :
    Except Err Nat × List NativeCall :=
  if offset + src.length > h.len then (.error .outOfBoundsWrite, [])
  else
    (.ok (nv.mmap_write h.ptr offset src src.length),
     [.writeCall h.ptr offset src.length])

/-- `read(h, dst, offset)` from `src/ffi_api.ts`: bounds-check
`offset + dst.length > h.len` first, then a single `mmap_read` call whose
result is returned as the byte count.  Only the destination length matters
to the control flow, so `dst` is passed as its length. -/
def read (nv : Native) (h : MmapHandle) (dst : List Nat) (offset : Nat) :
    Except Err Nat × List NativeCall :=
  if offset + dst.length > h.len then (.error .outOfBoundsRead, [])
  else
    (.ok (nv.mmap_read h.ptr offset dst.length),
     [.readCall h.ptr offset dst.length])

/-- `flush(h, offset, length?)` from `src/ffi_api.ts`: the length defaults
to `h.len - offset`, `mmap_flush` is always called, and a non-zero status
code becomes a `mmap_flush failed` error. -/
def flush (nv : Native) (h : MmapHandle) (offset : Nat) (length? : Option Nat) :
    Except Err Unit × List NativeCall :=
  let len := length?.getD (h.len - offset)
  let rc := nv.mmap_flush h.ptr offset len
  if rc ≠ 0 then (.error .flushFailed, [.flushCall h.ptr offset len])
  else (.ok (), [.flushCall h.ptr offset len])

/-- `close(h)` from `src/ffi_api.ts`: a single unconditional
`mmap_close(h.ptr, h.len)` call; nothing is returned and nothing is
checked. -/
def close (_nv : Native) (h : MmapHandle) : List NativeCall :=
  [.closeCall h.ptr h.len]

/-- `write` together with the handle record as it stands after the call.
The body of `write` in `src/ffi_api.ts` contains no assignment to `h.ptr`,
`h.len` or `h.path`, so the post-call record is the unchanged `h`. -/
def writeOp (nv : Native) (h : MmapHandle) (src : List Nat) (offset : Nat) :
    (Except Err Nat × List NativeCall) × MmapHandle :=
  (write nv h src offset, h)

/-- `read` together with the post-call handle record (no field of `h` is
assigned in the source body). -/
def readOp (nv : Native) (h : MmapHandle) (dst : List Nat) (offset : Nat) :
    (Except Err Nat × List NativeCall) × MmapHandle :=
  (read nv h dst offset, h)

/-- `flush` together with the post-call handle record (no field of `h` is
assigned in the source body). -/
def flushOp (nv : Native) (h : MmapHandle) (offset : Nat) (length? : Option Nat) :
    (Except Err Unit × List NativeCall) × MmapHandle :=
  (flush nv h offset length?, h)

/-- `close` together with the post-call handle record: the source body is
the single native call and performs no invalidation of `h`'s fields. -/
def closeOp (nv : Native) (h : MmapHandle) : List NativeCall × MmapHandle :=
  (close nv h, h)

/-! ## Filesystem model and the open family -/

/-- The byte length of each file on disk, `none` when the file is absent.
Only file sizes matter to the open family's control flow. -/
structure FsState where
  fileSize : String → Option Nat

/-- Modelled from the spec: the native `mmap_open_write` symbol of the Rust
engine (not in this repository) maps an existing file read-write, reports
the current file size through the out-parameter, and returns a null region
reference when the open fails (the file does not exist).  A successful map
is represented by the non-null region reference `1`. -/
def mmap_open_write (fs : FsState) (path : String) : Option (Nat × Nat) :=
  match fs.fileSize path with
  | some k => some (1, k)
  | none => none

/-- Modelled from the spec: the native `mmap_open_write_with_size` symbol
(not in this repository) "ensures the backing file is at least `minSize`
bytes before mapping read-write", reporting the resulting mapped length.
The resulting file size is `max current requested`, never a shrink. -/
def mmap_open_write_with_size (fs : FsState) (path : String) (size : Nat) :
    Option (Nat × Nat × FsState) :=
  match fs.fileSize path with
  | some k =>
    let newLen := max k size
    some (1, newLen, ⟨fun q => if q = path then some newLen else fs.fileSize q⟩)
  | none => none

/-- Modelled from the spec: `Deno.truncate(path, len)` (a Deno runtime
primitive, not repository code) resizes an existing file to exactly `len`
bytes, truncating or extending, and fails when the file does not exist. -/
def denoTruncate (fs : FsState) (path : String) (size : Nat) : Except Err FsState :=
  match fs.fileSize path with
  | some _ => .ok ⟨fun q => if q = path then some size else fs.fileSize q⟩
  | none => .error (.fileNotFound path)

/-- `openWrite(path)` from `src/ffi_api.ts`: call `mmap_open_write`, throw
`mmap_open_write failed` on a null region reference, otherwise build the
handle from the returned pointer and reported length. -/
def openWrite (fs : FsState) (path : String) : Except Err MmapHandle :=
  match mmap_open_write fs path with
  | none => .error (.openFailed path)
  | some (p, len) =>
    if p = 0 then .error (.openFailed path) else .ok ⟨p, len, path⟩

/-- The two interface shapes of `loadLibrary`: `Full` binds `symbolsV2`
(which has `mmap_open_write_with_size`), `Legacy` binds `symbolsV1`. -/
inductive Iface where
  | Full
  | Legacy
  deriving DecidableEq, Repr

/-- JavaScript truthiness of the guard
`(lib.symbols as any).mmap_open_write_with_size?.parameters` in
`src/ffi_api.ts`.  The entries of a `Deno.dlopen` result's `symbols`
object are plain JS functions, and a function has no `parameters`
property (hence the `as any` cast in the source), so the optional-chain
read yields `undefined` — falsy — for both bound interface shapes. -/
def hasNative (_iface : Iface) : Bool := false

/-- `openWriteWithSize(path, size)` from `src/ffi_api.ts`: the `hasNative`
guard selects between the native `mmap_open_write_with_size` call and the
`Deno.truncate(path, size)`-then-`openWrite(path)` fallback.  Because the
guard is falsy for every bound interface, the native branch is
unreachable and every call runs the fallback, resizing the file to
exactly `size`.  Returns the handle together with the filesystem state
after the call. -/
def openWriteWithSize (iface : Iface) (fs : FsState) (path : String) (size : Nat) :
    Except Err (MmapHandle × FsState) :=
  if hasNative iface then
    match mmap_open_write_with_size fs path size with
    | none => .error (.openFailed path)
    | some (p, len, fs2) =>
      if p = 0 then .error (.openFailed path) else .ok (⟨p, len, path⟩, fs2)
  else
    match denoTruncate fs path size with
    | .error e => .error e
    | .ok fs2 =>
      match openWrite fs2 path with
      | .error e => .error e
      | .ok h => .ok (h, fs2)

/-! ## Binary resolver and integrity verifier (`src/loader.ts`) -/

/-- A file in the version-scoped cache directory: its bytes and its Unix
file mode (the loader writes downloads with mode `0o755`). -/
structure CacheFile where
  bytes : List Nat
  mode : Nat
  deriving DecidableEq, Repr

/-- The environment `loadLibrary` runs in: the `MMAP_LIB_PATH` variable,
whether the two dev-artifact paths exist as files, the cache directory
root and the current content of the cache candidate file, the outcome a
network download would have, the `checksums.json` manifest, and the
SHA-256 hex-digest function (kept abstract). -/
structure LoadEnv where
  mmapLibPath : Option String
  distFlat : Bool
  distLegacy : Bool
  cacheRoot : String
  cache : Option CacheFile
  downloadResult : Except Unit (List Nat)
  checksums : String → Option String
  sha256Hex : List Nat → String

/-- JavaScript truthiness of the `MMAP_LIB_PATH` lookup: `undefined` and
the empty string are falsy. -/
def envTruthy : Option String → Bool
  | none => false
  | some s => if s = "" then false else true

/-- `devPath(asset)` from `src/loader.ts`: probe `./dist/<asset>` first,
then the legacy `./dist/<osTag>-<arch>/<asset>` layout (with the
darwin→macos tag remap), returning the first path that is a file. -/
def devPath (e : LoadEnv) (os arch asset : String) : Option String :=
  let osTag := if os = "darwin" then "macos" else os
  if e.distFlat then some ("./dist/" ++ asset)
  else if e.distLegacy then some ("./dist/" ++ osTag ++ "-" ++ arch ++ "/" ++ asset)
  else none

/-- JavaScript `toLowerCase()` as applied to the hex digest strings in
`loadLibrary`, modelled as ASCII case folding of the characters. -/
def lowerAscii (s : String) : String :=
  ⟨s.data.map Char.toLower⟩

/-- The cache tier of `loadLibrary` as a predicate: the `try` block of the
source succeeds exactly when the candidate file is readable, the manifest
has an entry for the asset, and the digests agree case-insensitively.
Every failure inside the block (unreadable file, missing manifest entry,
digest mismatch) is caught by the `catch` and sends resolution to the
download tier, so the block's observable outcome is this boolean. -/
def cacheVerifies (e : LoadEnv) (asset : String) : Bool :=
  match e.cache with
  | none => false
  | some cf =>
    match e.checksums asset with
    | none => false
    | some want => lowerAscii (e.sha256Hex cf.bytes) = lowerAscii want

/-- The `catch` block of the cache tier in `loadLibrary`: download the
asset, look up its manifest entry (`No checksum for ...` when absent),
compare digests case-insensitively (`Checksum mismatch for ...` when they
disagree), and only then persist the bytes to the cache candidate with
mode `0o755`.  Any error here propagates to the caller. -/
def downloadTier (e : LoadEnv) (asset candidate : String) :
    Except Err String × Option CacheFile :=
  match e.downloadResult with
  | .error _ => (.error .downloadFailed, e.cache)
  | .ok bin =>
    match e.checksums asset with
    | none => (.error (.missingChecksumEntry asset), e.cache)
    | some want =>
      if lowerAscii (e.sha256Hex bin) = lowerAscii want then
        (.ok candidate, some ⟨bin, 0o755⟩)
      else (.error (.checksumMismatch asset), e.cache)

/-- The path-resolution part of `loadLibrary` from `src/loader.ts`:
environment override first (used verbatim), then the dev artifact (used
verbatim), then the verified cache, then the download tier.  Returns the
resolved path (or the error that escaped) together with the cache
candidate file's content after the run. -/
def resolveLibPath (e : LoadEnv) (os arch asset : String) :
    Except Err String × Option CacheFile :=
  if envTruthy e.mmapLibPath then (.ok (e.mmapLibPath.getD ""), e.cache)
  else
    match devPath e os arch asset with
    | some p => (.ok p, e.cache)
    | none =>
      let candidate := e.cacheRoot ++ "/" ++ asset
      if cacheVerifies e asset then (.ok candidate, e.cache)
      else downloadTier e asset candidate

/-! ## Symbol negotiator (`src/loader.ts`) -/

/-- The symbol names of the `symbolsV1` (legacy) shape in `src/loader.ts`. -/
def symbolNamesV1 : List String :=
  ["mmap_open", "mmap_open_write", "mmap_write", "mmap_read", "mmap_flush",
   "mmap_close"]

/-- The symbol names of the `symbolsV2` (full) shape in `src/loader.ts`. -/
def symbolNamesV2 : List String :=
  ["mmap_open", "mmap_open_write", "mmap_open_write_with_size", "mmap_write",
   "mmap_read", "mmap_flush", "mmap_close"]

/-- Whether `Deno.dlopen` succeeds against the resolved binary for each of
the two symbol shapes; outside the repository, so kept abstract. -/
structure DlopenEnv where
  bindsV2 : Bool
  bindsV1 : Bool

/-- The symbol-binding tail of `loadLibrary`: `Deno.dlopen` with
`symbolsV2` inside a `try`, `Deno.dlopen` with `symbolsV1` in the `catch`;
a failure of the second attempt propagates to the caller. -/
def bindInterface (d : DlopenEnv) : Except Err Iface :=
  if d.bindsV2 then .ok .Full
  else if d.bindsV1 then .ok .Legacy
  else .error .libraryLoadFailed

/-! ## Concrete instances used by witnesses -/

/-- A native oracle whose copies report the requested length. -/
def natFull : Native :=
  ⟨fun _ _ _ l => l, fun _ _ l => l, fun _ _ _ => 0⟩

/-- A native oracle that reports `0` bytes copied on every call. -/
def natShort : Native :=
  ⟨fun _ _ _ _ => 0, fun _ _ _ => 0, fun _ _ _ => 0⟩

/-- A concrete handle: region reference `1`, mapped length `4`. -/
def hW : MmapHandle := ⟨1, 4, "w.bin"⟩

/-- A filesystem on which every path is a 100-byte file. -/
def fsBig : FsState := ⟨fun _ => some 100⟩

/-- A load environment with a truthy `MMAP_LIB_PATH` override. -/
def envOverrideW : LoadEnv :=
  ⟨some "/tmp/libmmap.so", false, false, "/cache/mmap/1.0.0", none,
   .error (), fun _ => none, fun _ => "aa"⟩

/-- A load environment with no override, no dev artifact, a cached file
whose digest (`"cc"`) disagrees with the manifest entry (`"AB"`), and a
download whose bytes hash to `"ab"` (a case-insensitive match). -/
def envStaleCache : LoadEnv :=
  ⟨none, false, false, "/cache/mmap/1.0.0", some ⟨[9, 9], 420⟩,
   .ok [1, 2, 3], fun _ => some "AB",
   fun bs => if bs = [1, 2, 3] then "ab" else "cc"⟩

/-- A load environment whose download hashes to `"cc"` against a manifest
entry of `"ab"`: a digest mismatch at the download tier. -/
def envBadDownload : LoadEnv :=
  ⟨none, false, false, "/cache/mmap/1.0.0", none,
   .ok [1, 2, 3], fun _ => some "ab", fun _ => "cc"⟩

/-- A load environment whose manifest has no entry for any asset, with a
stale cache file present and a download that succeeds. -/
def envNoEntry : LoadEnv :=
  ⟨none, false, false, "/cache/mmap/1.0.0", some ⟨[9], 420⟩,
   .ok [1], fun _ => none, fun _ => "aa"⟩

/-! ## Helper lemmas -/

/-- When the override is falsy, no dev artifact exists and the cache tier
fails, `resolveLibPath` is exactly the download tier. -/
theorem resolveLibPath_late (e : LoadEnv) (os arch asset : String)
    (henv : envTruthy e.mmapLibPath = false)
    (hflat : e.distFlat = false) (hleg : e.distLegacy = false)
    (hcv : cacheVerifies e asset = false) :
    resolveLibPath e os arch asset =
      downloadTier e asset (e.cacheRoot ++ "/" ++ asset) := by
  simp [resolveLibPath, devPath, henv, hflat, hleg, hcv]

/-- The resolved path produced by the download tier does not depend on the
pre-existing cache content. -/
theorem downloadTier_fst_cache_irrel (e : LoadEnv) (asset candidate : String) :
    (downloadTier e asset candidate).1 =
      (downloadTier ⟨e.mmapLibPath, e.distFlat, e.distLegacy, e.cacheRoot,
        none, e.downloadResult, e.checksums, e.sha256Hex⟩ asset candidate).1 := by
  unfold downloadTier
  cases e.downloadResult with
  | error u => rfl
  | ok bin =>
    cases e.checksums asset with
    | none => rfl
    | some want =>
      by_cases hb : lowerAscii (e.sha256Hex bin) = lowerAscii want <;> simp [hb]

/-! ## Claim theorems -/

/-- C1: `write(h, buf, off)` and `read(h, buf, off)` fail with the
out-of-bounds error whenever `off + buf.length > h.len`, and in that case
no native `mmap_write`/`mmap_read` call is issued (empty call list); when
`off + buf.length ≤ h.len` no bounds error is raised and the single
native call is made. -/
theorem write_read_bounds (nv : Native) (h : MmapHandle) (buf : List Nat)
    (off : Nat) :
    (off + buf.length > h.len →
      write nv h buf off = (.error .outOfBoundsWrite, []) ∧
      read nv h buf off = (.error .outOfBoundsRead, [])) ∧
    (off + buf.length ≤ h.len →
      write nv h buf off =
        (.ok (nv.mmap_write h.ptr off buf buf.length),
         [.writeCall h.ptr off buf.length]) ∧
      read nv h buf off =
        (.ok (nv.mmap_read h.ptr off buf.length),
         [.readCall h.ptr off buf.length])) := by
  constructor
  · intro hgt
    constructor <;> simp [write, read, hgt]
  · intro hle
    have hngt : ¬ h.len < off + buf.length := not_lt.mpr hle
    constructor <;> simp [write, read, hngt]

/-- Witness for C1: with `hW` of mapped length 4, a 3-byte transfer at
offset 2 is rejected with no native call, and a 2-byte transfer at
offset 2 goes through to the native layer. -/
theorem write_read_bounds_witness :
    (write natFull hW [7, 7, 7] 2 = (.error .outOfBoundsWrite, []) ∧
     read natFull hW [7, 7, 7] 2 = (.error .outOfBoundsRead, [])) ∧
    (write natFull hW [7, 7] 2 =
       (.ok (natFull.mmap_write hW.ptr 2 [7, 7] 2),
        [.writeCall hW.ptr 2 2]) ∧
     read natFull hW [7, 7] 2 =
       (.ok (natFull.mmap_read hW.ptr 2 2), [.readCall hW.ptr 2 2])) :=
  ⟨(write_read_bounds natFull hW [7, 7, 7] 2).1 (by decide),
   (write_read_bounds natFull hW [7, 7] 2).2 (by decide)⟩

/-- C2 counterexample: with a native layer that reports 0 bytes copied,
the in-bounds calls `write(hW, [42], 0)` and `read(hW, [42], 0)` return
`.ok 0` — the short count is handed back to the caller, not turned into a
PartialTransfer error, even though the requested length was 1. -/
theorem write_read_short_count_returned :
    (write natShort hW [42] 0).1 = .ok 0 ∧
    (read natShort hW [42] 0).1 = .ok 0 ∧
    (1 : Nat) ≠ 0 :=
  ⟨rfl, rfl, by decide⟩

/-- C2 amended: for every in-bounds call, `write` and `read` return
exactly the byte count reported by the native layer, with no comparison
against the requested length and no PartialTransfer error; a mismatching
count is returned to the caller as-is. -/
theorem write_read_return_native_count (nv : Native) (h : MmapHandle)
    (buf : List Nat) (off : Nat) (hin : off + buf.length ≤ h.len) :
    (write nv h buf off).1 = .ok (nv.mmap_write h.ptr off buf buf.length) ∧
    (read nv h buf off).1 = .ok (nv.mmap_read h.ptr off buf.length) := by
  have hngt : ¬ h.len < off + buf.length := not_lt.mpr hin
  constructor <;> simp [write, read, hngt]

/-- Witness for the amended C2, at the short-copy oracle. -/
theorem write_read_return_native_count_witness :
    (write natShort hW [42] 0).1 = .ok (natShort.mmap_write hW.ptr 0 [42] 1) ∧
    (read natShort hW [42] 0).1 = .ok (natShort.mmap_read hW.ptr 0 1) :=
  write_read_return_native_count natShort hW [42] 0 (by decide)

/-- C3: at the failing input — the `Full` interface bound, an existing
100-byte file `a.bin`, requested size 8 — `openWriteWithSize` does not
delegate to the native size-ensuring open: the guard read of
`mmap_open_write_with_size?.parameters` is falsy even on a `Full` bind,
so the call runs the `Deno.truncate`-then-`openWrite` fallback, shrinking
the file to exactly 8 bytes and mapping length 8, whereas the native
delegation described by the claim (and by the function's own doc comment)
would have produced length `max 100 8 = 100` and never shrunk the file. -/
theorem openWriteWithSize_full_not_delegated :
    (∃ h fs2, openWriteWithSize .Full fsBig "a.bin" 8 = .ok (h, fs2) ∧
      h.len = 8 ∧ fs2.fileSize "a.bin" = some 8) ∧
    hasNative .Full = false ∧
    (∃ p len fs2, mmap_open_write_with_size fsBig "a.bin" 8 =
      some (p, len, fs2) ∧ len = 100) := by
  refine ⟨⟨⟨1, 8, "a.bin"⟩,
    ⟨fun q => if q = "a.bin" then some 8 else fsBig.fileSize q⟩, ?_, rfl, ?_⟩,
    rfl,
    ⟨1, 100, ⟨fun q => if q = "a.bin" then some 100 else fsBig.fileSize q⟩,
      ?_, rfl⟩⟩
  · simp [openWriteWithSize, hasNative, denoTruncate, fsBig, openWrite,
      mmap_open_write]
  · simp
  · simp [mmap_open_write_with_size, fsBig]

/-- C9: asset naming is deterministic and produces exactly
`<crateName>-<osTag>-<archTag>.<ext>` with windows→dll, linux→so,
darwin→dylib and the darwin label remapped to the `macos` tag; an OS
outside {windows, linux, darwin} or an arch outside {x86_64, aarch64}
makes `currentPlatform` (and hence `assetName`) fail with the
corresponding unsupported-platform error. -/
theorem assetName_spec (os arch crate : String) :
    ((os = "windows" ∨ os = "linux" ∨ os = "darwin") →
      (arch = "x86_64" ∨ arch = "aarch64") →
      assetName os arch crate =
        .ok (crate ++ "-" ++ (if os = "darwin" then "macos" else os) ++ "-"
          ++ arch ++ "."
          ++ (if os = "windows" then "dll"
              else if os = "linux" then "so" else "dylib"))) ∧
    (¬(os = "windows" ∨ os = "linux" ∨ os = "darwin") →
      currentPlatform os arch = .error (.unsupportedOS os) ∧
      assetName os arch crate = .error (.unsupportedOS os)) ∧
    ((os = "windows" ∨ os = "linux" ∨ os = "darwin") →
      ¬(arch = "x86_64" ∨ arch = "aarch64") →
      currentPlatform os arch = .error (.unsupportedArch arch) ∧
      assetName os arch crate = .error (.unsupportedArch arch)) := by
  refine ⟨?_, ?_, ?_⟩
  · intro hos harch
    rcases hos with h | h | h <;> rcases harch with ha | ha <;>
      subst h <;> subst ha <;> rfl
  · intro hns
    have h1 : os ≠ "windows" := fun h => hns (Or.inl h)
    have h2 : os ≠ "linux" := fun h => hns (Or.inr (Or.inl h))
    have h3 : os ≠ "darwin" := fun h => hns (Or.inr (Or.inr h))
    refine ⟨?_, ?_⟩
    · simp [currentPlatform, h1, h2, h3]
    · simp [assetName, currentPlatform, h1, h2, h3]
  · intro hos hna
    have ha1 : arch ≠ "x86_64" := fun h => hna (Or.inl h)
    have ha2 : arch ≠ "aarch64" := fun h => hna (Or.inr h)
    rcases hos with h | h | h <;> subst h <;>
      exact ⟨by simp [currentPlatform, ha1, ha2],
             by simp [assetName, currentPlatform, ha1, ha2]⟩

/-- Witness for C9: on darwin/aarch64 the default crate name resolves to
`mmap_ffi-macos-aarch64.dylib`. -/
theorem assetName_spec_witness :
    assetName "darwin" "aarch64" "mmap_ffi" =
      .ok "mmap_ffi-macos-aarch64.dylib" := by
  have h := (assetName_spec "darwin" "aarch64" "mmap_ffi").1
    (Or.inr (Or.inr rfl)) (Or.inr rfl)
  rw [h]
  exact congrArg Except.ok (by decide)

/-- C10: none of `write`, `read`, `flush`, `close` mutates the fields of
the handle record: the post-call handle equals the pre-call handle for
every input, and in particular `close` performs no internal invalidation
of the record. -/
theorem handle_ops_frame (nv : Native) (h : MmapHandle) (buf dst : List Nat)
    (off : Nat) (length? : Option Nat) :
    (writeOp nv h buf off).2 = h ∧ (readOp nv h dst off).2 = h ∧
    (flushOp nv h off length?).2 = h ∧ (closeOp nv h).2 = h :=
  ⟨rfl, rfl, rfl, rfl⟩

/-- C4: library resolution follows the fixed priority order with the
first match winning.  A truthy `MMAP_LIB_PATH` is used verbatim (the
equation holds for every manifest, digest function and download outcome,
so no verification and no later tier is consulted); otherwise the flat
`./dist/<asset>` layout wins over the legacy nested layout; otherwise a
cache candidate is accepted when (and only in this tier, after) its
digest verifies, again independently of the download outcome. -/
theorem resolve_priority (e : LoadEnv) (os arch asset : String) :
    (∀ s, e.mmapLibPath = some s → s ≠ "" →
      resolveLibPath e os arch asset = (.ok s, e.cache)) ∧
    (envTruthy e.mmapLibPath = false → e.distFlat = true →
      resolveLibPath e os arch asset = (.ok ("./dist/" ++ asset), e.cache)) ∧
    (envTruthy e.mmapLibPath = false → e.distFlat = false →
      e.distLegacy = true →
      resolveLibPath e os arch asset =
        (.ok ("./dist/" ++ (if os = "darwin" then "macos" else os) ++ "-"
          ++ arch ++ "/" ++ asset), e.cache)) ∧
    (envTruthy e.mmapLibPath = false → e.distFlat = false →
      e.distLegacy = false → cacheVerifies e asset = true →
      resolveLibPath e os arch asset =
        (.ok (e.cacheRoot ++ "/" ++ asset), e.cache)) := by
  refine ⟨?_, ?_, ?_, ?_⟩
  · intro s hs hne
    simp [resolveLibPath, envTruthy, hs, hne]
  · intro henv hflat
    simp [resolveLibPath, henv, devPath, hflat]
  · intro henv hflat hleg
    simp [resolveLibPath, henv, devPath, hflat, hleg]
  · intro henv hflat hleg hcv
    simp [resolveLibPath, devPath, henv, hflat, hleg, hcv]

/-- Witness for C4: the environment override wins and is used verbatim,
even though this environment's manifest is empty and its download would
fail. -/
theorem resolve_priority_witness :
    resolveLibPath envOverrideW "linux" "x86_64" "mmap_ffi-linux-x86_64.so" =
      (.ok "/tmp/libmmap.so", none) :=
  (resolve_priority envOverrideW "linux" "x86_64"
    "mmap_ffi-linux-x86_64.so").1 "/tmp/libmmap.so" rfl (by decide)

/-- C5: when the cached bytes' digest disagrees with the manifest entry,
the cached bytes are not accepted and the resolved outcome is the one the
download tier gives with no cache file at all; when the download then
verifies, the fresh bytes overwrite the cache entry (mode `0o755`). -/
theorem cache_mismatch_falls_to_download (e : LoadEnv) (os arch asset : String)
    (cf : CacheFile) (want : String)
    (henv : envTruthy e.mmapLibPath = false)
    (hflat : e.distFlat = false) (hleg : e.distLegacy = false)
    (hcache : e.cache = some cf) (hwant : e.checksums asset = some want)
    (hmis : lowerAscii (e.sha256Hex cf.bytes) ≠ lowerAscii want) :
    (resolveLibPath e os arch asset).1 =
      (resolveLibPath ⟨e.mmapLibPath, e.distFlat, e.distLegacy, e.cacheRoot,
        none, e.downloadResult, e.checksums, e.sha256Hex⟩ os arch asset).1 ∧
    (∀ bin, e.downloadResult = .ok bin →
      lowerAscii (e.sha256Hex bin) = lowerAscii want →
      resolveLibPath e os arch asset =
        (.ok (e.cacheRoot ++ "/" ++ asset), some ⟨bin, 0o755⟩)) := by
  have hcv : cacheVerifies e asset = false := by
    simp [cacheVerifies, hcache, hwant, hmis]
  have hcv2 : cacheVerifies ⟨e.mmapLibPath, e.distFlat, e.distLegacy,
      e.cacheRoot, none, e.downloadResult, e.checksums, e.sha256Hex⟩
      asset = false := by
    simp [cacheVerifies]
  constructor
  · have h2 := resolveLibPath_late
      ⟨e.mmapLibPath, e.distFlat, e.distLegacy, e.cacheRoot, none,
       e.downloadResult, e.checksums, e.sha256Hex⟩ os arch asset
      henv hflat hleg hcv2
    rw [resolveLibPath_late e os arch asset henv hflat hleg hcv, h2]
    exact downloadTier_fst_cache_irrel e asset (e.cacheRoot ++ "/" ++ asset)
  · intro bin hdl hok
    rw [resolveLibPath_late e os arch asset henv hflat hleg hcv]
    simp [downloadTier, hdl, hwant, hok]

/-- Witness for C5: a stale cache (digest `cc` against entry `AB`) is
rejected and the verified download `[1, 2, 3]` overwrites the cache. -/
theorem cache_mismatch_falls_to_download_witness :
    resolveLibPath envStaleCache "linux" "x86_64" "a.so" =
      (.ok (envStaleCache.cacheRoot ++ "/" ++ "a.so"),
       some ⟨[1, 2, 3], 0o755⟩) :=
  (cache_mismatch_falls_to_download envStaleCache "linux" "x86_64" "a.so"
    ⟨[9, 9], 420⟩ "AB" rfl rfl rfl rfl rfl (by decide)).2 [1, 2, 3] rfl
    (by decide)

/-- C6: a downloaded asset whose digest disagrees with the manifest entry
makes resolution fail with the checksum-mismatch error and leaves the
cache entry unchanged; only bytes whose digest verifies are persisted,
and they are written with the executable mode `0o755`. -/
theorem download_verification (e : LoadEnv) (os arch asset : String)
    (want : String) (bin : List Nat)
    (henv : envTruthy e.mmapLibPath = false)
    (hflat : e.distFlat = false) (hleg : e.distLegacy = false)
    (hcv : cacheVerifies e asset = false)
    (hdl : e.downloadResult = .ok bin)
    (hwant : e.checksums asset = some want) :
    (lowerAscii (e.sha256Hex bin) ≠ lowerAscii want →
      resolveLibPath e os arch asset =
        (.error (.checksumMismatch asset), e.cache)) ∧
    (lowerAscii (e.sha256Hex bin) = lowerAscii want →
      resolveLibPath e os arch asset =
        (.ok (e.cacheRoot ++ "/" ++ asset), some ⟨bin, 0o755⟩)) := by
  rw [resolveLibPath_late e os arch asset henv hflat hleg hcv]
  constructor
  · intro hbad; simp [downloadTier, hdl, hwant, hbad]
  · intro hok; simp [downloadTier, hdl, hwant, hok]

/-- Witness for C6: a tampered download (digest `cc` against entry `ab`)
is a hard checksum-mismatch failure and the cache stays empty. -/
theorem download_verification_witness :
    resolveLibPath envBadDownload "linux" "x86_64" "a.so" =
      (.error (.checksumMismatch "a.so"), none) :=
  (download_verification envBadDownload "linux" "x86_64" "a.so" "ab"
    [1, 2, 3] rfl rfl rfl rfl rfl rfl).1 (by decide)

/-- C7: an asset with no manifest entry makes resolution fail hard with
the missing-checksum-entry error — whatever the cache file holds, so in
the cache-verification path as well as the download-verification path —
and that error is distinguishable from every checksum-mismatch error. -/
theorem missing_manifest_entry_fatal (e : LoadEnv) (os arch asset : String)
    (bin : List Nat)
    (henv : envTruthy e.mmapLibPath = false)
    (hflat : e.distFlat = false) (hleg : e.distLegacy = false)
    (hnone : e.checksums asset = none)
    (hdl : e.downloadResult = .ok bin) :
    resolveLibPath e os arch asset =
      (.error (.missingChecksumEntry asset), e.cache) ∧
    (∀ a b : String, Err.missingChecksumEntry a ≠ Err.checksumMismatch b) := by
  have hcv : cacheVerifies e asset = false := by
    cases hc : e.cache <;> simp [cacheVerifies, hc, hnone]
  constructor
  · rw [resolveLibPath_late e os arch asset henv hflat hleg hcv]
    simp [downloadTier, hdl, hnone]
  · intro a b h
    exact Err.noConfusion h

/-- Witness for C7: with a cache file present but no manifest entry,
resolution fails with the missing-entry error and the stale cache file is
left as it was. -/
theorem missing_manifest_entry_fatal_witness :
    resolveLibPath envNoEntry "linux" "x86_64" "b.so" =
      (.error (.missingChecksumEntry "b.so"), some ⟨[9], 420⟩) :=
  (missing_manifest_entry_fatal envNoEntry "linux" "x86_64" "b.so" [1]
    rfl rfl rfl rfl rfl).1

/-- C8: symbol binding attempts the full shape (`symbolsV2`) first and
succeeds with it whenever it binds; the legacy shape (`symbolsV1`) is
bound exactly when the full bind fails and the legacy bind succeeds; when
both fail the result is the fatal library-load-failed error with no third
fallback.  The full symbol set is the six base operations plus
`mmap_open_write_with_size`, which the legacy set lacks, so a legacy bind
dispatches every later operation through the six-symbol legacy shape. -/
theorem bind_negotiation (d : DlopenEnv) :
    (d.bindsV2 = true → bindInterface d = .ok .Full) ∧
    (d.bindsV2 = false → d.bindsV1 = true → bindInterface d = .ok .Legacy) ∧
    (d.bindsV2 = false → d.bindsV1 = false →
      bindInterface d = .error .libraryLoadFailed) ∧
    (bindInterface d = .ok .Legacy → d.bindsV2 = false ∧ d.bindsV1 = true) ∧
    symbolNamesV2 =
      symbolNamesV1.take 2 ++ "mmap_open_write_with_size"
        :: symbolNamesV1.drop 2 ∧
    "mmap_open_write_with_size" ∉ symbolNamesV1 := by
  refine ⟨?_, ?_, ?_, ?_, by decide, by decide⟩
  · intro h2; simp [bindInterface, h2]
  · intro h2 h1; simp [bindInterface, h2, h1]
  · intro h2 h1; simp [bindInterface, h2, h1]
  · intro hleg
    cases h2 : d.bindsV2 <;> cases h1 : d.bindsV1 <;>
      simp [bindInterface, h2, h1] at hleg ⊢

/-- Witness for C8: a binary that rejects the full shape but accepts the
legacy one binds as `Legacy`. -/
theorem bind_negotiation_witness :
    bindInterface ⟨false, true⟩ = .ok .Legacy :=
  (bind_negotiation ⟨false, true⟩).2.1 rfl rfl

end DenoMmap
